import Mathlib

/-!
Shallow embedding of the lumalla Wayland compositor's protocol layer:
the event `Writer` from `lumalla_wayland_protocol/src/buffer.rs`, the
per-client object `Registry` from `lumalla_wayland_protocol/src/registry.rs`,
the shared-memory manager from `lumalla_display/src/shm.rs`, and the
request handlers from `lumalla_display/src/protocols/wayland.rs`.

Machine integers are modelled as `Nat` with explicit `% 2^w` where the
source truncates; raw pointers returned by `mmap` are modelled as
`Option Nat` (`none` stands for `MAP_FAILED`, `some a` for the address
`a`, with `some 0` the null pointer that `munmap` leaves behind).  The
results of the external calls `mmap` and `sendmsg` are threaded in as
explicit parameters (`mmap`) or modelled as succeeding (`sendmsg`); no
verified statement depends on a `sendmsg` failure occurring.
-/

namespace Lumalla

/-! ## Byte-level helpers

The socket buffers in `buffer.rs` are fixed `u8` arrays written in place
at a cursor; we model a buffer as a total function `Nat → Nat` from byte
index to byte value together with the cursor `bytes_in_buffer`.  The
target is x86-64 Linux, so `to_ne_bytes` is little-endian.
-/

/-- The little-endian bytes of a `u16` value. -/
def le16 (v : Nat) : List Nat := [v % 256, v / 256 % 256]

/-- The little-endian bytes of a `u32` value. -/
def le32 (v : Nat) : List Nat :=
  [v % 256, v / 256 % 256, v / 65536 % 256, v / 16777216 % 256]

/-- Overwrite the byte at index `i`. -/
def setByte (f : Nat → Nat) (i b : Nat) : Nat → Nat :=
  fun j => if j = i then b else f j

/-- Overwrite the bytes starting at index `i` with the given list
(`copy_from_slice` on a subrange). -/
def storeBytes : (Nat → Nat) → Nat → List Nat → (Nat → Nat)
  | f, _, [] => f
  | f, i, b :: bs => storeBytes (setByte f i b) (i + 1) bs

/-- Read back a little-endian `u16` at index `i`. -/
def readU16 (f : Nat → Nat) (i : Nat) : Nat :=
  f i + 256 * f (i + 1)

/-- Read back a little-endian `u32` at index `i`. -/
def readU32 (f : Nat → Nat) (i : Nat) : Nat :=
  f i + 256 * f (i + 1) + 65536 * f (i + 2) + 16777216 * f (i + 3)

/-! ## The event writer (`buffer.rs`) -/

/-- Source `MAX_MESSAGE_SIZE` in `buffer.rs`: `u16::MAX`. -/
def MAX_MESSAGE_SIZE : Nat := 65535

/-- Source `MAX_STRING_LENGTH` in `buffer.rs`. -/
def MAX_STRING_LENGTH : Nat := 2048

/-- Source `size_of::<cmsghdr>()` on x86-64 Linux. -/
def CMSGHDR_SIZE : Nat := 16

/-- The size of the `CmsgBuffer`: `size_of::<cmsghdr>() + 253 * size_of::<RawFd>()`. -/
def CMSG_BUFFER_SIZE : Nat := CMSGHDR_SIZE + 253 * 4

/-- The `Writer` of `buffer.rs`.  `buffer` is the byte buffer, `sent`
collects bytes handed to `sendmsg` by `flush`, `fdvals` the file
descriptors queued in the control-message buffer (whose fill level is
`bytes_in_fds`, starting past the `cmsghdr`). -/
structure Writer where
  fd : Int
  buffer : Nat → Nat
  bytes_in_buffer : Nat
  fdvals : List Int
  bytes_in_fds : Nat
  message_length_index : Nat
  last_err : Option String
  sent : List Nat

/-- Source `Writer::new`.  The source buffer is uninitialized memory; the model
fills it with zeros, and no verified statement reads an unwritten byte. -/
def Writer.new (fd : Int) : Writer :=
  { fd := fd
    buffer := fun _ => 0
    bytes_in_buffer := 0
    fdvals := []
    bytes_in_fds := CMSGHDR_SIZE
    message_length_index := 0
    last_err := none
    sent := [] }

/-- Source `Writer::last_err`: takes the latched error. -/
def Writer.take_last_err (w : Writer) : Option String × Writer :=
  (w.last_err, { w with last_err := none })

/-- Source `Writer::write_u16` (no latched-error guard in the source). -/
def Writer.write_u16 (w : Writer) (value : Nat) : Writer :=
  { w with
    buffer := storeBytes w.buffer w.bytes_in_buffer (le16 (value % 65536))
    bytes_in_buffer := w.bytes_in_buffer + 2 }

/-- Source `Writer::write_u32` (no latched-error guard in the source). -/
def Writer.write_u32 (w : Writer) (value : Nat) : Writer :=
  { w with
    buffer := storeBytes w.buffer w.bytes_in_buffer (le32 (value % 4294967296))
    bytes_in_buffer := w.bytes_in_buffer + 4 }

/-- Source `Writer::write_str`: truncates to `MAX_STRING_LENGTH` bytes, writes a
`u32` length equal to the (truncated) byte count, the bytes themselves,
one NUL byte, and advances the cursor past `4 - len % 4` trailing bytes
so the encoding ends on a 32-bit boundary.  Strings are modelled as
their UTF-8 byte lists. -/
def Writer.write_str (w : Writer) (value : List Nat) : Writer :=
  let bytes := value.take MAX_STRING_LENGTH
  let len := bytes.length
  let len_index_start := w.bytes_in_buffer
  let str_index_start := len_index_start + 4
  let str_index_end := str_index_start + len
  let buf1 := storeBytes w.buffer len_index_start (le32 len)
  let buf2 := storeBytes buf1 str_index_start bytes
  let buf3 := setByte buf2 str_index_end 0
  { w with buffer := buf3, bytes_in_buffer := str_index_end + (4 - len % 4) }

/-- Source `Writer::write_fd`: appends the descriptor to the control-message
buffer. -/
def Writer.write_fd (w : Writer) (fd : Int) : Writer :=
  { w with fdvals := w.fdvals ++ [fd], bytes_in_fds := w.bytes_in_fds + 4 }

/-- Source `Writer::flush`.  `sendmsg` is modelled as succeeding: the sent bytes
are moved into `sent`.  When more than `MAX_MESSAGE_SIZE` bytes are
buffered the remainder is shifted to the front (`copy_within`). -/
def Writer.flush (w : Writer) : Writer :=
  if w.bytes_in_buffer = 0 then w
  else
    let sendCount := min w.bytes_in_buffer MAX_MESSAGE_SIZE
    let w1 := { w with sent := w.sent ++ (List.range sendCount).map w.buffer }
    if MAX_MESSAGE_SIZE < w.bytes_in_buffer then
      { w1 with
        buffer := fun i => w.buffer (i + MAX_MESSAGE_SIZE)
        bytes_in_buffer := w.bytes_in_buffer - MAX_MESSAGE_SIZE
        fdvals := []
        bytes_in_fds := CMSGHDR_SIZE }
    else
      { w1 with bytes_in_buffer := 0, fdvals := [], bytes_in_fds := CMSGHDR_SIZE }

/-- Source `Writer::flush_if_needed`: flush once the byte buffer reaches
`MAX_MESSAGE_SIZE` or the control buffer is more than half full. -/
def Writer.flush_if_needed (w : Writer) : Writer :=
  if MAX_MESSAGE_SIZE ≤ w.bytes_in_buffer ∨ CMSG_BUFFER_SIZE / 2 < w.bytes_in_fds then
    w.flush
  else w

/-- Source `Writer::start_message`: a no-op when an error is latched; otherwise
flushes if needed, writes the object id, remembers where the 16-bit size
field goes, and writes a zero size placeholder and the opcode. -/
def Writer.start_message (w : Writer) (object_id opcode : Nat) : Writer :=
  if w.last_err.isSome then w
  else
    let w1 := w.flush_if_needed
    let w2 := w1.write_u32 object_id
    let w3 := { w2 with message_length_index := w2.bytes_in_buffer }
    let w4 := w3.write_u16 0
    w4.write_u16 opcode

/-- Source `Writer::write_message_length`: patches the size field of the current
message with `bytes_in_buffer - message_length_index + size_of::<ObjectId>()`. -/
def Writer.write_message_length (w : Writer) : Writer :=
  { w with
    buffer := storeBytes w.buffer w.message_length_index
      (le16 ((w.bytes_in_buffer - w.message_length_index + 4) % 65536)) }

/-! ## Generated event emitters

The proc macro in `lumalla_wayland_protocol_macros` turns every event of
`wayland.xml` into a `Writer` method that calls `start_message` with the
event's index as opcode, then one builder step per argument that calls
the matching raw write, the last one followed by `write_message_length`.
The builder steps do not consult `last_err`.  Each chain is modelled as
one function.  Event indices: `wl_display`: `error` 0, `delete_id` 1;
`wl_callback`: `done` 0; `wl_shm`: `format` 0; `wl_seat`:
`capabilities` 0, `name` 1; `wl_buffer`: `release` 0;
`wl_registry`: `global` 0.
-/

/-- Source `writer.wl_display_error(object_id).object_id(..).code(..).message(..)`. -/
def Writer.wl_display_error (w : Writer) (object_id target code : Nat)
    (message : List Nat) : Writer :=
  ((((w.start_message object_id 0).write_u32 target).write_u32 code).write_str
    message).write_message_length

/-- Source `writer.wl_display_delete_id(object_id).id(id)`. -/
def Writer.wl_display_delete_id (w : Writer) (object_id id : Nat) : Writer :=
  ((w.start_message object_id 1).write_u32 id).write_message_length

/-- Source `writer.wl_callback_done(object_id).callback_data(data)`. -/
def Writer.wl_callback_done (w : Writer) (object_id callback_data : Nat) : Writer :=
  ((w.start_message object_id 0).write_u32 callback_data).write_message_length

/-- Source `writer.wl_shm_format(object_id).format(fmt)`. -/
def Writer.wl_shm_format (w : Writer) (object_id fmt : Nat) : Writer :=
  ((w.start_message object_id 0).write_u32 fmt).write_message_length

/-- Source `writer.wl_seat_capabilities(object_id).capabilities(caps)`. -/
def Writer.wl_seat_capabilities (w : Writer) (object_id caps : Nat) : Writer :=
  ((w.start_message object_id 0).write_u32 caps).write_message_length

/-- Source `writer.wl_seat_name(object_id).name(name)`. -/
def Writer.wl_seat_name (w : Writer) (object_id : Nat) (name : List Nat) : Writer :=
  ((w.start_message object_id 1).write_str name).write_message_length

/-- Source `writer.wl_buffer_release(object_id)`. -/
def Writer.wl_buffer_release (w : Writer) (object_id : Nat) : Writer :=
  (w.start_message object_id 0).write_message_length

/-- Source `writer.wl_registry_global(object_id).name(..).interface(..).version(..)`. -/
def Writer.wl_registry_global (w : Writer) (object_id name : Nat)
    (interface : List Nat) (version : Nat) : Writer :=
  ((((w.start_message object_id 0).write_u32 name).write_str interface).write_u32
    version).write_message_length

/-! ## Association-map helpers

`std::collections::HashMap` is modelled as an association list whose
`insert` replaces any existing binding, so a key is bound at most once
and iteration order plays no role in the verified statements.
-/

/-- Source `HashMap::get`. -/
def mapLookup {K V : Type} [DecidableEq K] : List (K × V) → K → Option V
  | [], _ => none
  | (k, v) :: rest, key => if k = key then some v else mapLookup rest key

/-- Source `HashMap::remove` (dropping the returned value). -/
def mapRemove {K V : Type} [DecidableEq K] : List (K × V) → K → List (K × V)
  | [], _ => []
  | (k, v) :: rest, key =>
      if k = key then mapRemove rest key else (k, v) :: mapRemove rest key

/-- Source `HashMap::insert`: replaces any existing binding for the key. -/
def mapInsert {K V : Type} [DecidableEq K] (m : List (K × V)) (key : K) (value : V) :
    List (K × V) :=
  (key, value) :: mapRemove m key

theorem mapRemove_lookup_ne {K V : Type} [DecidableEq K]
    (m : List (K × V)) (k k' : K) (h : k' ≠ k) :
    mapLookup (mapRemove m k) k' = mapLookup m k' := by
  induction m with
  | nil => rfl
  | cons p rest ih =>
      obtain ⟨a, v⟩ := p
      by_cases hak : a = k
      · simp [mapRemove, mapLookup, hak, ih, Ne.symm h]
      · by_cases hak' : a = k'
        · simp [mapRemove, mapLookup, hak, hak', h]
        · simp [mapRemove, mapLookup, hak, hak', ih]

theorem mapInsert_lookup_self {K V : Type} [DecidableEq K]
    (m : List (K × V)) (k : K) (v : V) :
    mapLookup (mapInsert m k v) k = some v := by
  simp [mapInsert, mapLookup]

theorem mapInsert_lookup_ne {K V : Type} [DecidableEq K]
    (m : List (K × V)) (k k' : K) (v : V) (h : k' ≠ k) :
    mapLookup (mapInsert m k v) k' = mapLookup m k' := by
  simp [mapInsert, mapLookup, Ne.symm h, mapRemove_lookup_ne m k k' h]

/-! ## The per-client object registry (`registry.rs`) -/

/-- The `InterfaceIndex` enum of `registry.rs`. -/
inductive InterfaceIndex
  | WlDisplay
  | WlRegistry
  | WlCallback
  | WlCompositor
  | WlShmPool
  | WlShm
  | WlBuffer
  | WlDataOffer
  | WlDataSource
  | WlDataDevice
  | WlDataDeviceManager
  | WlShell
  | WlShellSurface
  | WlSurface
  | WlSeat
  | WlPointer
  | WlKeyboard
  | WlTouch
  | WlOutput
  | WlRegion
  | WlSubcompositor
  | WlSubsurface
  | WlFixes
  deriving DecidableEq

/-- Source `InterfaceIndex::interface_name`, resolving the generated
`*_NAME` constants to the protocol names from `wayland.xml`. -/
def InterfaceIndex.interface_name : InterfaceIndex → String
  | .WlDisplay => "wl_display"
  | .WlRegistry => "wl_registry"
  | .WlCallback => "wl_callback"
  | .WlCompositor => "wl_compositor"
  | .WlShmPool => "wl_shm_pool"
  | .WlShm => "wl_shm"
  | .WlBuffer => "wl_buffer"
  | .WlDataOffer => "wl_data_offer"
  | .WlDataSource => "wl_data_source"
  | .WlDataDevice => "wl_data_device"
  | .WlDataDeviceManager => "wl_data_device_manager"
  | .WlShell => "wl_shell"
  | .WlShellSurface => "wl_shell_surface"
  | .WlSurface => "wl_surface"
  | .WlSeat => "wl_seat"
  | .WlPointer => "wl_pointer"
  | .WlKeyboard => "wl_keyboard"
  | .WlTouch => "wl_touch"
  | .WlOutput => "wl_output"
  | .WlRegion => "wl_region"
  | .WlSubcompositor => "wl_subcompositor"
  | .WlSubsurface => "wl_subsurface"
  | .WlFixes => "wl_fixes"

/-- Source `MIN_SERVER_OBJECT_ID`: `0xFF000000`. -/
def MIN_SERVER_OBJECT_ID : Nat := 0xFF000000

/-- Source `DISPLAY_OBJECT_ID`: object 1. -/
def DISPLAY_OBJECT_ID : Nat := 1

/-- The `Registry` of `registry.rs`.  Object ids are the nonzero `u32`
values of `ObjectId`; `freed_object_ids` is the server-side free list
(source `Vec` push/pop at the back, modelled as cons/head, which is the
same LIFO discipline). -/
structure Registry where
  objects : List (Nat × InterfaceIndex)
  next_object_id : Nat
  freed_object_ids : List Nat

/-- Source `Registry::register_object`: a plain map insert, no liveness check. -/
def Registry.register_object (r : Registry) (object_id : Nat)
    (interface_index : InterfaceIndex) : Registry :=
  { r with objects := mapInsert r.objects object_id interface_index }

/-- Source `Registry::new`: empty map, next server id at `MIN_SERVER_OBJECT_ID`,
then object 1 registered as `WlDisplay`. -/
def Registry.new : Registry :=
  Registry.register_object
    { objects := [], next_object_id := MIN_SERVER_OBJECT_ID, freed_object_ids := [] }
    DISPLAY_OBJECT_ID .WlDisplay

/-- Source `Registry::interface_index`. -/
def Registry.interface_index (r : Registry) (object_id : Nat) :
    Option InterfaceIndex :=
  mapLookup r.objects object_id

/-- Source `Registry::create_object` (with `Registry::next_object_id` inlined):
pops the free list if possible, otherwise uses `next_object_id` and
advances it, failing (`none`) when the successor wraps to zero.  The
`+ 1` is `u32` arithmetic, hence the `% 2^32`. -/
def Registry.create_object (r : Registry) (interface_index : InterfaceIndex) :
    Option (Registry × Nat) :=
  match r.freed_object_ids with
  | object_id :: rest =>
      some ({ r with
                freed_object_ids := rest
                objects := mapInsert r.objects object_id interface_index },
            object_id)
  | [] =>
      let object_id := r.next_object_id
      let next := (r.next_object_id + 1) % 4294967296
      if next = 0 then none
      else
        some ({ r with
                  next_object_id := next
                  objects := mapInsert r.objects object_id interface_index },
              object_id)

/-- Source `Registry::free_object`: removes the mapping; a server-minted id
(`id >= MIN_SERVER_OBJECT_ID`) goes back on the free list, a
client-minted id is acknowledged with `wl_display.delete_id` on the
display object instead. -/
def Registry.free_object (r : Registry) (object_id : Nat) (w : Writer) :
    Registry × Writer :=
  let r1 := { r with objects := mapRemove r.objects object_id }
  if MIN_SERVER_OBJECT_ID ≤ object_id then
    ({ r1 with freed_object_ids := object_id :: r1.freed_object_ids }, w)
  else
    (r1, w.wl_display_delete_id DISPLAY_OBJECT_ID object_id)

/-- One registry operation, for quantifying over operation sequences. -/
inductive RegOp
  | register (object_id : Nat) (interface_index : InterfaceIndex)
  | create (interface_index : InterfaceIndex)
  | free (object_id : Nat)

/-- Apply one registry operation to a registry/writer pair.  A failing
`create_object` (id-space exhaustion) leaves the registry unchanged, as
the bailing source path does. -/
def applyRegOp : Registry × Writer → RegOp → Registry × Writer
  | (r, w), .register object_id i => (r.register_object object_id i, w)
  | (r, w), .create i =>
      match r.create_object i with
      | some (r2, _) => (r2, w)
      | none => (r, w)
  | (r, w), .free object_id => r.free_object object_id w

/-- Run a sequence of registry operations. -/
def runRegOps (s : Registry × Writer) (ops : List RegOp) : Registry × Writer :=
  ops.foldl applyRegOp s

/-- Does the operation pass object id 1 as its own target?  (`create`
never does: it allocates server-side ids only.) -/
def RegOp.targetsDisplay : RegOp → Bool
  | .register object_id _ => object_id = 1
  | .create _ => false
  | .free object_id => object_id = 1

/-! ## The shared-memory manager (`shm.rs`)

Pointers are `Option Nat`: `none` is `MAP_FAILED`, `some a` any other
address (`some 0` the null pointer `unmap` stores).  The result of the
external `mmap` call is an explicit `mmap_result` parameter.  `ref_count`
is a `usize`; the source decrement `pool.ref_count -= 1` panics on
underflow in debug builds, and no verified statement depends on a state
where the decrement starts from zero.
-/

/-- The `ShmPool` of `shm.rs`. -/
structure ShmPool where
  fd : Int
  size : Nat
  address : Option Nat
  ref_count : Nat

/-- Source `ShmPool::new`: unmapped (`MAP_FAILED`) with `ref_count` 0. -/
def ShmPool.new (fd : Int) (size : Nat) : ShmPool :=
  { fd := fd, size := size, address := none, ref_count := 0 }

/-- Source `ShmPool::map`: stores the `mmap` result and returns whether it is a
usable address (different from `MAP_FAILED`). -/
def ShmPool.map (p : ShmPool) (mmap_result : Option Nat) : ShmPool × Bool :=
  ({ p with address := mmap_result }, mmap_result.isSome)

/-- Source `ShmPool::unmap`: `munmap` and store the null pointer, unless the
address already is `MAP_FAILED`. -/
def ShmPool.unmap (p : ShmPool) : ShmPool :=
  if p.address = none then p else { p with address := some 0 }

/-- Source `ShmPool::resize`: refuses a non-growing resize, otherwise unmaps and
remaps at the new size. -/
def ShmPool.resize (p : ShmPool) (size : Nat) (mmap_result : Option Nat) :
    ShmPool × Bool :=
  if size ≤ p.size then (p, false)
  else ({ p with size := size }).unmap.map mmap_result

/-- The `ShmBuffer` of `shm.rs` (the underscore prefixes of the unused
dimension fields are dropped). -/
structure ShmBuffer where
  shm_pool_index : Nat
  address : Option Nat
  offset : Nat
  width : Nat
  height : Nat
  stride : Nat
  format : Nat
  alive : Bool

/-- Source `ShmBuffer::rebase`: `MAP_FAILED` propagates, otherwise the buffer
address is the pool address plus the buffer offset. -/
def ShmBuffer.rebase (b : ShmBuffer) (address : Option Nat) : ShmBuffer :=
  match address with
  | none => { b with address := none }
  | some a => { b with address := some (a + b.offset) }

/-- Placeholder pool for out-of-range `Vec` indexing, which panics in
the source; reachable states index in range. -/
def junkPool : ShmPool := ShmPool.new 0 0

/-- Placeholder buffer for out-of-range `Vec` indexing. -/
def junkBuffer : ShmBuffer :=
  { shm_pool_index := 0, address := none, offset := 0, width := 0, height := 0,
    stride := 0, format := 0, alive := false }

/-- The `ShmManager` of `shm.rs`.  Keys of the two index maps are
`(ClientId, ObjectId)` pairs; the free-index `Vec`s are modelled as
cons/head LIFO lists. -/
structure ShmManager where
  shm_pool_index : List ((Nat × Nat) × Nat)
  shm_pools : List ShmPool
  free_shm_pool_indexes : List Nat
  buffer_index : List ((Nat × Nat) × Nat)
  buffers : List ShmBuffer
  free_buffer_indexes : List Nat

/-- Source `ShmManager::default()`. -/
def ShmManager.default : ShmManager :=
  { shm_pool_index := [], shm_pools := [], free_shm_pool_indexes := []
    buffer_index := [], buffers := [], free_buffer_indexes := [] }

/-- Source `ShmManager::create_pool`.  Note the source line
`let map_success = !shm_pool.map();`: the returned flag is the negation
of the mapping success reported by `ShmPool::map`.  The pool is stored
and indexed regardless of the `mmap` outcome, with `ref_count` 1. -/
def ShmManager.create_pool (m : ShmManager) (client_id object_id : Nat)
    (fd : Int) (size : Nat) (mmap_result : Option Nat) : ShmManager × Bool :=
  let p0 := ShmPool.new fd size
  let mapped := (p0.map mmap_result).2
  let p1 := (p0.map mmap_result).1
  let map_success := !mapped
  let p2 := { p1 with ref_count := p1.ref_count + 1 }
  match m.free_shm_pool_indexes with
  | index :: rest =>
      ({ m with
           shm_pools := m.shm_pools.set index p2
           free_shm_pool_indexes := rest
           shm_pool_index := mapInsert m.shm_pool_index (client_id, object_id) index },
       map_success)
  | [] =>
      ({ m with
           shm_pools := m.shm_pools ++ [p2]
           free_shm_pool_indexes := []
           shm_pool_index :=
             mapInsert m.shm_pool_index (client_id, object_id) m.shm_pools.length },
       map_success)

/-- Source `ShmManager::reduce_pool_ref_count`: decrement, and once the count
hits zero push the slot on the free list and unmap the pool. -/
def ShmManager.reduce_pool_ref_count (m : ShmManager) (pool_index : Nat) :
    ShmManager :=
  let pool := m.shm_pools.getD pool_index junkPool
  let pool1 := { pool with ref_count := pool.ref_count - 1 }
  if pool1.ref_count = 0 then
    { m with
        shm_pools := m.shm_pools.set pool_index pool1.unmap
        free_shm_pool_indexes := pool_index :: m.free_shm_pool_indexes }
  else
    { m with shm_pools := m.shm_pools.set pool_index pool1 }

/-- Source `ShmManager::delete_pool`: drop the index entry and release one
reference. -/
def ShmManager.delete_pool (m : ShmManager) (client_id object_id : Nat) :
    ShmManager :=
  match mapLookup m.shm_pool_index (client_id, object_id) with
  | none => m
  | some index =>
      ({ m with
           shm_pool_index :=
             mapRemove m.shm_pool_index (client_id, object_id) }).reduce_pool_ref_count
        index

/-- Source `ShmManager::create_buffer`: rejects an unknown pool; otherwise
builds the buffer at `MAP_FAILED`, rebases it onto the pool address,
stores it via the free list, and indexes it.  The pool's `ref_count` is
not touched. -/
def ShmManager.create_buffer (m : ShmManager)
    (client_id pool_id buffer_id offset width height stride format : Nat) :
    ShmManager × Bool :=
  match mapLookup m.shm_pool_index (client_id, pool_id) with
  | none => (m, false)
  | some pool_index =>
      let buffer0 : ShmBuffer :=
        { shm_pool_index := pool_index, address := none, offset := offset
          width := width, height := height, stride := stride, format := format
          alive := true }
      let buffer := buffer0.rebase (m.shm_pools.getD pool_index junkPool).address
      match m.free_buffer_indexes with
      | index :: rest =>
          ({ m with
               buffers := m.buffers.set index buffer
               free_buffer_indexes := rest
               buffer_index := mapInsert m.buffer_index (client_id, buffer_id) index },
           true)
      | [] =>
          ({ m with
               buffers := m.buffers ++ [buffer]
               free_buffer_indexes := []
               buffer_index :=
                 mapInsert m.buffer_index (client_id, buffer_id) m.buffers.length },
           true)

/-- Source `ShmManager::delete_buffer`: drop the index entry, recycle the slot,
mark the buffer dead, and release one pool reference. -/
def ShmManager.delete_buffer (m : ShmManager) (client_id buffer_id : Nat) :
    ShmManager :=
  match mapLookup m.buffer_index (client_id, buffer_id) with
  | none => m
  | some index =>
      let m1 :=
        { m with
            buffer_index := mapRemove m.buffer_index (client_id, buffer_id)
            free_buffer_indexes := index :: m.free_buffer_indexes }
      let buffer := m1.buffers.getD index junkBuffer
      let m2 := { m1 with buffers := m1.buffers.set index { buffer with alive := false } }
      m2.reduce_pool_ref_count buffer.shm_pool_index

/-- Source `ShmManager::resize_pool`: resize the pool and rebase every alive
buffer attached to it onto the new address. -/
def ShmManager.resize_pool (m : ShmManager) (client_id object_id size : Nat)
    (mmap_result : Option Nat) : ShmManager × Bool :=
  match mapLookup m.shm_pool_index (client_id, object_id) with
  | none => (m, false)
  | some index =>
      let pool := m.shm_pools.getD index junkPool
      let pool1 := (pool.resize size mmap_result).1
      let result := (pool.resize size mmap_result).2
      ({ m with
           shm_pools := m.shm_pools.set index pool1
           buffers := m.buffers.map fun b =>
             if b.alive && b.shm_pool_index == index then b.rebase pool1.address
             else b },
       result)

/-- One shared-memory manager operation, for quantifying over operation
sequences (the returned booleans are dropped). -/
inductive ShmOp
  | createPool (client_id object_id : Nat) (fd : Int) (size : Nat)
      (mmap_result : Option Nat)
  | createBuffer (client_id pool_id buffer_id offset width height stride format : Nat)
  | deleteBuffer (client_id buffer_id : Nat)
  | deletePool (client_id object_id : Nat)
  | resizePool (client_id object_id size : Nat) (mmap_result : Option Nat)

/-- Apply one shared-memory manager operation. -/
def applyShmOp (m : ShmManager) : ShmOp → ShmManager
  | .createPool c o fd size r => (m.create_pool c o fd size r).1
  | .createBuffer c p b off wd ht st fmtv => (m.create_buffer c p b off wd ht st fmtv).1
  | .deleteBuffer c b => m.delete_buffer c b
  | .deletePool c o => m.delete_pool c o
  | .resizePool c o size r => (m.resize_pool c o size r).1

/-- Run a sequence of shared-memory manager operations. -/
def runShmOps (m : ShmManager) (ops : List ShmOp) : ShmManager :=
  ops.foldl applyShmOp m

/-! ## Display-state request handlers (`lumalla_display/src/protocols/wayland.rs`) -/

/-- Generated constant `WL_SHM_FORMAT_XRGB8888` (from the `wl_shm.format`
enum of `wayland.xml`). -/
def WL_SHM_FORMAT_XRGB8888 : Nat := 1

/-- Generated constant `WL_SHM_FORMAT_RGBA8888` (fourcc `RA24`). -/
def WL_SHM_FORMAT_RGBA8888 : Nat := 0x34324152

/-- Generated constant `WL_SEAT_CAPABILITY_POINTER`. -/
def WL_SEAT_CAPABILITY_POINTER : Nat := 1

/-- Generated constant `WL_SEAT_CAPABILITY_KEYBOARD`. -/
def WL_SEAT_CAPABILITY_KEYBOARD : Nat := 2

/-- One entry of `Globals` in `lumalla_display/src/lib.rs` (the unused
underscore fields keep their meanings, names undecorated). -/
structure Global where
  name : String
  version : Nat
  interface_index : InterfaceIndex

/-- The slice of `DisplayState` the verified handlers read: the global
map (`Globals.globals`, keyed by `GlobalId`) and the seat-name map of
`SeatManager` (`id_to_name`, names as UTF-8 byte lists). -/
structure DisplayState where
  globals : List (Nat × Global)
  seat_names : List (Nat × List Nat)

/-- Handler `WlDisplay::sync for DisplayState`: emits
`wl_callback.done(callback_data = 0)` on the callback object, then
`wl_display.delete_id(callback)` on the object the request was sent to. -/
def DisplayState.sync (_st : DisplayState) (w : Writer) (object_id callback : Nat) :
    Writer :=
  (w.wl_callback_done callback 0).wl_display_delete_id object_id callback

/-- Handler `WlRegistry::bind for DisplayState`: looks up the global by
name (returning silently if unknown), registers the new object under the
global's interface, then matches the client-supplied interface string:
for `wl_shm` it emits `format(RGBA8888)` followed by `format(XRGB8888)`,
for `wl_seat` it emits `name(..)` followed by
`capabilities(POINTER|KEYBOARD)`. -/
def DisplayState.bind (st : DisplayState) (r : Registry) (w : Writer)
    (name new_id : Nat) (id_interface : String) : Registry × Writer :=
  match mapLookup st.globals name with
  | none => (r, w)
  | some global =>
      let r1 := r.register_object new_id global.interface_index
      if id_interface = InterfaceIndex.interface_name .WlShm then
        (r1, (w.wl_shm_format new_id WL_SHM_FORMAT_RGBA8888).wl_shm_format
               new_id WL_SHM_FORMAT_XRGB8888)
      else if id_interface = InterfaceIndex.interface_name .WlSeat then
        let seat_name := (mapLookup st.seat_names name).getD []
        (r1, (w.wl_seat_name new_id seat_name).wl_seat_capabilities new_id
               (WL_SEAT_CAPABILITY_POINTER ||| WL_SEAT_CAPABILITY_KEYBOARD))
      else (r1, w)

/-! ## Concrete fixtures used by the verified statements -/

/-- A writer whose latched error is set: the state `Writer::flush`
failure leaves behind when `sendmsg` fails inside `start_message`. -/
def latchedWriter : Writer :=
  { Writer.new 0 with last_err := some "sendmsg failed" }

/-- The `wl_shm` global entry (`Globals::default` registers it). -/
def shmGlobal : Global :=
  { name := "wl_shm", version := 1, interface_index := .WlShm }

/-- A display state owning the single `wl_shm` global under id 1. -/
def shmBindFixture : DisplayState :=
  { globals := [(1, shmGlobal)], seat_names := [] }

/-- The shm operation sequence refuting the ref-count invariant: create
a pool (with a successful `mmap` at address 65536), attach a buffer to
it, then destroy the pool object. -/
def c2FailingRun : ShmManager :=
  runShmOps ShmManager.default
    [.createPool 1 2 5 4096 (some 65536),
     .createBuffer 1 2 3 0 4 4 16 1,
     .deletePool 1 2]

/-! ## Lemmas about the byte buffer -/

theorem le16_length (v : Nat) : (le16 v).length = 2 := rfl

theorem le32_length (v : Nat) : (le32 v).length = 4 := rfl

theorem setByte_eq (f : Nat → Nat) (i b : Nat) : setByte f i b i = b := by
  simp [setByte]

theorem setByte_ne (f : Nat → Nat) (i b j : Nat) (h : j ≠ i) :
    setByte f i b j = f j := by
  simp [setByte, h]

theorem storeBytes_lt (bs : List Nat) (f : Nat → Nat) (i j : Nat) (h : j < i) :
    storeBytes f i bs j = f j := by
  induction bs generalizing f i with
  | nil => rfl
  | cons b rest ih =>
      rw [storeBytes, ih (setByte f i b) (i + 1) (by omega),
        setByte_ne _ _ _ _ (by omega)]

theorem storeBytes_ge (bs : List Nat) (f : Nat → Nat) (i j : Nat)
    (h : i + bs.length ≤ j) : storeBytes f i bs j = f j := by
  induction bs generalizing f i with
  | nil => rfl
  | cons b rest ih =>
      simp only [List.length_cons] at h
      rw [storeBytes, ih (setByte f i b) (i + 1) (by omega),
        setByte_ne _ _ _ _ (by omega)]

theorem storeBytes_get (t : List Nat) (f : Nat → Nat) (i k : Nat)
    (hk : k < t.length) : storeBytes f i t (i + k) = t.get ⟨k, hk⟩ := by
  induction t generalizing f i k with
  | nil => simp at hk
  | cons b rest ih =>
      cases k with
      | zero =>
          rw [storeBytes, storeBytes_lt _ _ _ _ (by omega)]
          simp [setByte_eq]
      | succ k =>
          have hidx : i + (k + 1) = (i + 1) + k := by omega
          simp only [List.length_cons] at hk
          rw [storeBytes, hidx, ih (setByte f i b) (i + 1) k (by omega)]
          rfl

theorem readU16_skip_store (bs : List Nat) (f : Nat → Nat) (i j : Nat)
    (h : i + bs.length ≤ j ∨ j + 2 ≤ i) :
    readU16 (storeBytes f i bs) j = readU16 f j := by
  cases h with
  | inl h =>
      rw [readU16, readU16, storeBytes_ge _ _ _ _ (by omega),
        storeBytes_ge _ _ _ _ (by omega)]
  | inr h =>
      rw [readU16, readU16, storeBytes_lt _ _ _ _ (by omega),
        storeBytes_lt _ _ _ _ (by omega)]

theorem readU32_skip_store (bs : List Nat) (f : Nat → Nat) (i j : Nat)
    (h : i + bs.length ≤ j ∨ j + 4 ≤ i) :
    readU32 (storeBytes f i bs) j = readU32 f j := by
  cases h with
  | inl h =>
      rw [readU32, readU32, storeBytes_ge _ _ _ _ (by omega),
        storeBytes_ge _ _ _ _ (by omega), storeBytes_ge _ _ _ _ (by omega),
        storeBytes_ge _ _ _ _ (by omega)]
  | inr h =>
      rw [readU32, readU32, storeBytes_lt _ _ _ _ (by omega),
        storeBytes_lt _ _ _ _ (by omega), storeBytes_lt _ _ _ _ (by omega),
        storeBytes_lt _ _ _ _ (by omega)]

theorem readU32_skip_set (f : Nat → Nat) (i b j : Nat) (h : j + 4 ≤ i ∨ i < j) :
    readU32 (setByte f i b) j = readU32 f j := by
  rw [readU32, readU32, setByte_ne _ _ _ _ (by omega), setByte_ne _ _ _ _ (by omega),
    setByte_ne _ _ _ _ (by omega), setByte_ne _ _ _ _ (by omega)]

theorem readU16_store_le16 (f : Nat → Nat) (i v : Nat) :
    readU16 (storeBytes f i (le16 v)) i = v % 65536 := by
  have h0 := storeBytes_get (le16 v) f i 0 (by simp [le16])
  have h1 := storeBytes_get (le16 v) f i 1 (by simp [le16])
  rw [Nat.add_zero] at h0
  rw [readU16, h0, h1]
  show v % 256 + 256 * (v / 256 % 256) = v % 65536
  omega

theorem readU32_store_le32 (f : Nat → Nat) (i v : Nat) :
    readU32 (storeBytes f i (le32 v)) i = v % 4294967296 := by
  have h0 := storeBytes_get (le32 v) f i 0 (by simp [le32])
  have h1 := storeBytes_get (le32 v) f i 1 (by simp [le32])
  have h2 := storeBytes_get (le32 v) f i 2 (by simp [le32])
  have h3 := storeBytes_get (le32 v) f i 3 (by simp [le32])
  rw [Nat.add_zero] at h0
  rw [readU32, h0, h1, h2, h3]
  show v % 256 + 256 * (v / 256 % 256) + 65536 * (v / 65536 % 256) +
      16777216 * (v / 16777216 % 256) = v % 4294967296
  omega

/-! ## Lemmas about list indexing (for the `Vec` slots of `ShmManager`) -/

theorem getD_set_self {α : Type} (l : List α) (i : Nat) (v d : α)
    (h : i < l.length) : (l.set i v).getD i d = v := by
  induction l generalizing i with
  | nil => simp at h
  | cons a rest ih =>
      cases i with
      | zero => rfl
      | succ i =>
          simp only [List.length_cons] at h
          exact ih i (by omega)

theorem getD_append_self {α : Type} (l : List α) (v d : α) :
    (l ++ [v]).getD l.length d = v := by
  induction l with
  | nil => rfl
  | cons a rest ih => exact ih

theorem getElemD_set_self {α : Type} (l : List α) (i : Nat) (v d : α)
    (h : i < l.length) : ((l.set i v)[i]?).getD d = v := by
  rw [← List.getD_eq_getElem?_getD]
  exact getD_set_self l i v d h

theorem getElemD_append_self {α : Type} (l : List α) (v d : α) :
    ((l ++ [v])[l.length]?).getD d = v := by
  rw [← List.getD_eq_getElem?_getD]
  exact getD_append_self l v d

/-! ## The registry invariant behind the display object

The induction invariant for object 1: it is mapped to `WlDisplay`, the
id counter can never produce 1 (it lives in `[MIN_SERVER_OBJECT_ID,
2^32)` and is nonzero), and 1 is never on the server free list (only
ids at least `MIN_SERVER_OBJECT_ID` are pushed there).
-/

/-- Invariant tying object 1 to `WlDisplay`. -/
def RegistryInv (r : Registry) : Prop :=
  r.interface_index 1 = some InterfaceIndex.WlDisplay ∧
  r.next_object_id ≠ 0 ∧ r.next_object_id ≠ 1 ∧
  r.next_object_id < 4294967296 ∧ 1 ∉ r.freed_object_ids

theorem registryInv_new : RegistryInv Registry.new := by
  refine ⟨?_, ?_, ?_, ?_, ?_⟩ <;>
    simp [Registry.new, Registry.register_object, Registry.interface_index,
      MIN_SERVER_OBJECT_ID, DISPLAY_OBJECT_ID, mapInsert, mapRemove, mapLookup]

theorem applyRegOp_preserves_inv (r : Registry) (w : Writer) (op : RegOp)
    (hop : op.targetsDisplay = false) (h : RegistryInv r) :
    RegistryInv (applyRegOp (r, w) op).1 := by
  obtain ⟨hdisp, hnz, hno, hlt, hfree⟩ := h
  unfold RegistryInv
  cases op with
  | register object_id i =>
      have hne : (1 : Nat) ≠ object_id := by
        intro heq
        rw [← heq] at hop
        simp [RegOp.targetsDisplay] at hop
      simp only [applyRegOp, Registry.register_object, Registry.interface_index]
      exact ⟨by simpa [Registry.interface_index,
          mapInsert_lookup_ne _ _ _ _ hne] using hdisp, hnz, hno, hlt, hfree⟩
  | create i =>
      cases hfl : r.freed_object_ids with
      | cons a rest =>
          have ha : (1 : Nat) ≠ a := by
            intro heq
            apply hfree
            rw [hfl, ← heq]
            exact List.mem_cons_self 1 rest
          have hrest : 1 ∉ rest := by
            intro hmem
            apply hfree
            rw [hfl]
            exact List.mem_cons_of_mem a hmem
          simp only [applyRegOp, Registry.create_object, hfl]
          exact ⟨by simpa [Registry.interface_index,
              mapInsert_lookup_ne _ _ _ _ ha] using hdisp, hnz, hno, hlt, hrest⟩
      | nil =>
          by_cases hwrap : (r.next_object_id + 1) % 4294967296 = 0
          · simp only [applyRegOp, Registry.create_object, hfl, hwrap, if_pos rfl]
            exact ⟨hdisp, hnz, hno, hlt, by simp [hfl]⟩
          · have hne : (1 : Nat) ≠ r.next_object_id := fun heq => hno heq.symm
            simp only [applyRegOp, Registry.create_object, hfl, if_neg hwrap]
            refine ⟨by simpa [Registry.interface_index,
                mapInsert_lookup_ne _ _ _ _ hne] using hdisp, hwrap, ?_, ?_, by simp [hfl]⟩
            · intro heq
              omega
            · omega
  | free object_id =>
      have hne : (1 : Nat) ≠ object_id := by
        intro heq
        rw [← heq] at hop
        simp [RegOp.targetsDisplay] at hop
      by_cases hsrv : MIN_SERVER_OBJECT_ID ≤ object_id
      · simp only [applyRegOp, Registry.free_object, if_pos hsrv]
        refine ⟨by simpa [Registry.interface_index,
            mapRemove_lookup_ne _ _ _ hne] using hdisp, hnz, hno, hlt, ?_⟩
        intro hmem
        rcases List.mem_cons.mp hmem with heq | hmem
        · rw [MIN_SERVER_OBJECT_ID] at hsrv
          omega
        · exact hfree hmem
      · simp only [applyRegOp, Registry.free_object, if_neg hsrv]
        exact ⟨by simpa [Registry.interface_index,
            mapRemove_lookup_ne _ _ _ hne] using hdisp, hnz, hno, hlt, hfree⟩

theorem runRegOps_preserves_inv (ops : List RegOp) (s : Registry × Writer)
    (hops : ∀ op ∈ ops, op.targetsDisplay = false) (h : RegistryInv s.1) :
    RegistryInv (runRegOps s ops).1 := by
  induction ops generalizing s with
  | nil => exact h
  | cons op rest ih =>
      have hstep := applyRegOp_preserves_inv s.1 s.2 op (hops op (by simp)) h
      have hrest : ∀ o ∈ rest, RegOp.targetsDisplay o = false := fun o ho =>
        hops o (by simp [ho])
      simpa [runRegOps] using ih (applyRegOp s op) hrest hstep

/-! # Claim C4 -/

/-- C4 (counterexample): registering object 2 as `WlRegistry` and then
again as `WlCallback` does not fail and silently replaces the mapping,
refuting the claim that a second registration of a live id signals a
protocol error instead of overwriting. -/
theorem c4_register_twice_counterexample :
    ((Registry.new.register_object 2 .WlRegistry).register_object 2
        .WlCallback).interface_index 2 = some .WlCallback ∧
    (Registry.new.register_object 2 .WlRegistry).interface_index 2 =
      some .WlRegistry := by
  decide

/-- C4 (amended): `Registry::register_object` called with an already-live
id succeeds silently and overwrites the previous mapping with the new
interface; it has no error channel at all. -/
theorem c4_register_object_overwrites (r : Registry) (object_id : Nat)
    (i j : InterfaceIndex) :
    ((r.register_object object_id i).register_object object_id j).interface_index
      object_id = some j := by
  simp [Registry.register_object, Registry.interface_index, mapInsert_lookup_self]

/-! # Claim C5 -/

/-- C5 (counterexample): `free_object` applied to object 1 removes the
`WlDisplay` mapping of object 1, refuting the claim that object 1 stays
mapped after every operation including `free_object(1)`. -/
theorem c5_free_display_counterexample :
    (Registry.new.free_object 1 (Writer.new 0)).1.interface_index 1 = none := by
  decide

/-- C5 (amended): object 1 is mapped to `WlDisplay` after `Registry::new`
and stays so after every sequence of operations none of which targets
object 1 itself (`register_object` at id 1 or `free_object(1)` can change
it; `create_object` never allocates id 1). -/
theorem c5_display_object_stays (ops : List RegOp) (fd : Int)
    (hops : ∀ op ∈ ops, op.targetsDisplay = false) :
    (runRegOps (Registry.new, Writer.new fd) ops).1.interface_index 1 =
      some InterfaceIndex.WlDisplay :=
  (runRegOps_preserves_inv ops (Registry.new, Writer.new fd) hops registryInv_new).1

theorem c5_display_object_stays_witness :
    (∀ op ∈ ([.register 2 .WlCallback, .create .WlSurface, .free 2] : List RegOp),
        RegOp.targetsDisplay op = false) ∧
    (runRegOps (Registry.new, Writer.new 0)
        [.register 2 .WlCallback, .create .WlSurface, .free 2]).1.interface_index 1 =
      some InterfaceIndex.WlDisplay :=
  ⟨by decide, c5_display_object_stays
    [.register 2 .WlCallback, .create .WlSurface, .free 2] 0 (by decide)⟩

/-! # Claim C9 -/

/-- Characterization of `free_object` on a client-minted id: the mapping
is removed and the delete is acknowledged on the wire instead of the
free list. -/
theorem free_object_client (r : Registry) (object_id : Nat) (w : Writer)
    (h : object_id < MIN_SERVER_OBJECT_ID) :
    r.free_object object_id w =
      ({ r with objects := mapRemove r.objects object_id },
        w.wl_display_delete_id DISPLAY_OBJECT_ID object_id) := by
  rw [Registry.free_object, if_neg (by omega)]

/-- Evaluation of `wl_display.delete_id` emitted into a fresh writer. -/
theorem wl_display_delete_id_new (fd : Int) (oid id : Nat) :
    (Writer.new fd).wl_display_delete_id oid id =
      { fd := fd
        buffer := storeBytes (storeBytes (storeBytes (storeBytes (storeBytes
            (fun _ => 0) 0 (le32 (oid % 4294967296))) 4 (le16 0)) 6 (le16 1))
            8 (le32 (id % 4294967296))) 4 (le16 12)
        bytes_in_buffer := 12
        fdvals := []
        bytes_in_fds := CMSGHDR_SIZE
        message_length_index := 4
        last_err := none
        sent := [] } := rfl

/-- C9 (confirmed): for a client-minted nonzero id,
`register_object(id, I); free_object(id, w); register_object(id, J)`
leaves `interface_index(id) = some J`; the free step leaves the server
free list untouched and instead frames a single 12-byte
`wl_display.delete_id(id)` event on object 1 with no file descriptors. -/
theorem c9_reregister_after_free (r : Registry) (id : Nat)
    (i j : InterfaceIndex) (fd : Int)
    (hpos : 1 ≤ id) (hcl : id < MIN_SERVER_OBJECT_ID) :
    ((((r.register_object id i).free_object id
          (Writer.new fd)).1.register_object id j).interface_index id = some j) ∧
    ((r.register_object id i).free_object id (Writer.new fd)).1.freed_object_ids =
      r.freed_object_ids ∧
    ((r.register_object id i).free_object id (Writer.new fd)).2.bytes_in_buffer = 12 ∧
    readU32 ((r.register_object id i).free_object id (Writer.new fd)).2.buffer 0 =
      DISPLAY_OBJECT_ID ∧
    readU16 ((r.register_object id i).free_object id (Writer.new fd)).2.buffer 4 = 12 ∧
    readU16 ((r.register_object id i).free_object id (Writer.new fd)).2.buffer 6 = 1 ∧
    readU32 ((r.register_object id i).free_object id (Writer.new fd)).2.buffer 8 = id ∧
    ((r.register_object id i).free_object id (Writer.new fd)).2.fdvals = [] ∧
    ((r.register_object id i).free_object id (Writer.new fd)).2.bytes_in_fds =
      CMSGHDR_SIZE := by
  rw [free_object_client _ _ _ hcl, wl_display_delete_id_new]
  have hmin : MIN_SERVER_OBJECT_ID = 4278190080 := rfl
  refine ⟨?_, ?_, rfl, ?_, ?_, ?_, ?_, rfl, rfl⟩
  · simp [Registry.register_object, Registry.interface_index, mapInsert_lookup_self]
  · simp [Registry.register_object]
  · simp [readU32_skip_store, readU16_skip_store, readU32_store_le32, le16_length,
      le32_length, DISPLAY_OBJECT_ID]
  · simp [readU16_skip_store, readU16_store_le16, le16_length, le32_length]
  · simp [readU16_skip_store, readU16_store_le16, le16_length, le32_length]
  · simp [readU32_skip_store, readU32_store_le32, le16_length, le32_length]
    omega

theorem c9_reregister_after_free_witness :
    ((1 : Nat) ≤ 7 ∧ (7 : Nat) < MIN_SERVER_OBJECT_ID) ∧
    ((((Registry.new.register_object 7 .WlSurface).free_object 7
          (Writer.new 0)).1.register_object 7 .WlRegion).interface_index 7 =
        some .WlRegion) ∧
    ((Registry.new.register_object 7 .WlSurface).free_object 7
        (Writer.new 0)).1.freed_object_ids = Registry.new.freed_object_ids ∧
    ((Registry.new.register_object 7 .WlSurface).free_object 7
        (Writer.new 0)).2.bytes_in_buffer = 12 ∧
    readU32 ((Registry.new.register_object 7 .WlSurface).free_object 7
        (Writer.new 0)).2.buffer 0 = DISPLAY_OBJECT_ID ∧
    readU16 ((Registry.new.register_object 7 .WlSurface).free_object 7
        (Writer.new 0)).2.buffer 4 = 12 ∧
    readU16 ((Registry.new.register_object 7 .WlSurface).free_object 7
        (Writer.new 0)).2.buffer 6 = 1 ∧
    readU32 ((Registry.new.register_object 7 .WlSurface).free_object 7
        (Writer.new 0)).2.buffer 8 = 7 ∧
    ((Registry.new.register_object 7 .WlSurface).free_object 7
        (Writer.new 0)).2.fdvals = [] ∧
    ((Registry.new.register_object 7 .WlSurface).free_object 7
        (Writer.new 0)).2.bytes_in_fds = CMSGHDR_SIZE :=
  ⟨⟨by decide, by decide⟩,
    c9_reregister_after_free Registry.new 7 .WlSurface .WlRegion 0
      (by decide) (by decide)⟩

/-! # Claim C1 -/

/-- C1 (refuting evaluation): `ShmManager::create_pool` returns `true`
exactly when the `mmap` performed by `ShmPool::map` returned
`MAP_FAILED` — the opposite sense of the claim, which demands `true`
exactly on a usable address.  The inversion comes from the source line
`let map_success = !shm_pool.map();`. -/
theorem c1_create_pool_result_inverted (m : ShmManager)
    (client_id object_id : Nat) (fd : Int) (size : Nat)
    (mmap_result : Option Nat) :
    ((m.create_pool client_id object_id fd size mmap_result).2 = true) ↔
      mmap_result = none := by
  cases mmap_result <;> cases hfl : m.free_shm_pool_indexes <;>
    simp [ShmManager.create_pool, ShmPool.map, ShmPool.new, hfl]

/-! # Claim C2 -/

/-- C2 (refuting evaluation): `create_buffer` leaves the pool vector —
hence every `ref_count` — unchanged, and after
`create_pool; create_buffer; delete_pool` the buffer is still alive and
points at pool slot 0 whose `ref_count` is 0, refuting the invariant
that an alive buffer's pool keeps `ref_count ≥ 1` and that
`create_buffer` bumps it. -/
theorem c2_refcount_invariant_violated :
    (∀ (m : ShmManager) (c p b off wd ht st fmtv : Nat),
        (m.create_buffer c p b off wd ht st fmtv).1.shm_pools = m.shm_pools) ∧
    (c2FailingRun.buffers.getD 0 junkBuffer).alive = true ∧
    (c2FailingRun.buffers.getD 0 junkBuffer).shm_pool_index = 0 ∧
    (c2FailingRun.shm_pools.getD 0 junkPool).ref_count = 0 := by
  refine ⟨?_, by decide, by decide, by decide⟩
  intro m c p b off wd ht st fmtv
  cases hl : mapLookup m.shm_pool_index (c, p) with
  | none => simp [ShmManager.create_buffer, hl]
  | some pool_index =>
      cases hf : m.free_buffer_indexes <;>
        simp [ShmManager.create_buffer, hl, hf]

/-! # Claim C10 -/

/-- Helper for C10: `create_pool` always inserts an indexed pool slot
with `ref_count` 1 holding the `mmap` result, and leaves the buffer side
of the manager unchanged. -/
theorem create_pool_inserts (m : ShmManager) (c p : Nat) (fd : Int)
    (size : Nat) (mmap_result : Option Nat)
    (hpool : ∀ i ∈ m.free_shm_pool_indexes, i < m.shm_pools.length) :
    ∃ i, mapLookup (m.create_pool c p fd size mmap_result).1.shm_pool_index
          (c, p) = some i ∧
      ((m.create_pool c p fd size mmap_result).1.shm_pools.getD i
          junkPool).ref_count = 1 ∧
      ((m.create_pool c p fd size mmap_result).1.shm_pools.getD i
          junkPool).address = mmap_result ∧
      (m.create_pool c p fd size mmap_result).1.buffers = m.buffers ∧
      (m.create_pool c p fd size mmap_result).1.free_buffer_indexes =
        m.free_buffer_indexes := by
  cases hfl : m.free_shm_pool_indexes with
  | cons i0 rest =>
      have hlt : i0 < m.shm_pools.length := hpool i0 (by simp [hfl])
      refine ⟨i0, ?_, ?_, ?_, ?_, ?_⟩ <;>
        simp [ShmManager.create_pool, ShmPool.map, ShmPool.new, hfl,
          mapInsert_lookup_self, getElemD_set_self _ _ _ _ hlt]
  | nil =>
      refine ⟨m.shm_pools.length, ?_, ?_, ?_, ?_, ?_⟩ <;>
        simp [ShmManager.create_pool, ShmPool.map, ShmPool.new, hfl,
          mapInsert_lookup_self, getElemD_append_self]

/-- Helper for C10: `create_buffer` against an indexed pool with an
unusable (`MAP_FAILED`) address succeeds and produces an alive buffer
whose address is `MAP_FAILED`. -/
theorem create_buffer_on_failed_pool (m1 : ShmManager) (c p i : Nat)
    (hlook : mapLookup m1.shm_pool_index (c, p) = some i)
    (haddr : (m1.shm_pools.getD i junkPool).address = none)
    (hbuf : ∀ j ∈ m1.free_buffer_indexes, j < m1.buffers.length)
    (b off wd ht st fmtv : Nat) :
    (m1.create_buffer c p b off wd ht st fmtv).2 = true ∧
    ∃ j, mapLookup (m1.create_buffer c p b off wd ht st fmtv).1.buffer_index
          (c, b) = some j ∧
      ((m1.create_buffer c p b off wd ht st fmtv).1.buffers.getD j
          junkBuffer).alive = true ∧
      ((m1.create_buffer c p b off wd ht st fmtv).1.buffers.getD j
          junkBuffer).address = none ∧
      ((m1.create_buffer c p b off wd ht st fmtv).1.buffers.getD j
          junkBuffer).shm_pool_index = i := by
  rw [List.getD_eq_getElem?_getD] at haddr
  cases hfl : m1.free_buffer_indexes with
  | cons j0 rest =>
      have hlt : j0 < m1.buffers.length := hbuf j0 (by simp [hfl])
      refine ⟨?_, j0, ?_, ?_, ?_, ?_⟩ <;>
        simp [ShmManager.create_buffer, hlook, hfl, ShmBuffer.rebase, haddr,
          mapInsert_lookup_self, getElemD_set_self _ _ _ _ hlt]
  | nil =>
      refine ⟨?_, m1.buffers.length, ?_, ?_, ?_, ?_⟩ <;>
        simp [ShmManager.create_buffer, hlook, hfl, ShmBuffer.rebase, haddr,
          mapInsert_lookup_self, getElemD_append_self]

/-- C10 (confirmed): when the `mmap` inside `create_pool` fails the
manager state is still mutated: the pool is indexed with `ref_count` 1
and an unusable address, and a subsequent `create_buffer` against it
succeeds, yielding an alive buffer whose derived address is
`MAP_FAILED`. -/
theorem c10_failed_mmap_still_mutates (m : ShmManager)
    (hpool : ∀ i ∈ m.free_shm_pool_indexes, i < m.shm_pools.length)
    (hbuf : ∀ j ∈ m.free_buffer_indexes, j < m.buffers.length)
    (c p : Nat) (fd : Int) (size b off wd ht st fmtv : Nat) :
    ∃ i, mapLookup (m.create_pool c p fd size none).1.shm_pool_index (c, p) =
          some i ∧
      ((m.create_pool c p fd size none).1.shm_pools.getD i junkPool).ref_count
          = 1 ∧
      ((m.create_pool c p fd size none).1.shm_pools.getD i junkPool).address
          = none ∧
      ((m.create_pool c p fd size none).1.create_buffer c p b off wd ht st
          fmtv).2 = true ∧
      ∃ j, mapLookup ((m.create_pool c p fd size none).1.create_buffer c p b
              off wd ht st fmtv).1.buffer_index (c, b) = some j ∧
        (((m.create_pool c p fd size none).1.create_buffer c p b off wd ht st
            fmtv).1.buffers.getD j junkBuffer).alive = true ∧
        (((m.create_pool c p fd size none).1.create_buffer c p b off wd ht st
            fmtv).1.buffers.getD j junkBuffer).address = none ∧
        (((m.create_pool c p fd size none).1.create_buffer c p b off wd ht st
            fmtv).1.buffers.getD j junkBuffer).shm_pool_index = i := by
  obtain ⟨i, hlook, href, haddr, hbufeq, hfreeq⟩ :=
    create_pool_inserts m c p fd size none hpool
  have hbuf1 : ∀ j ∈ (m.create_pool c p fd size none).1.free_buffer_indexes,
      j < (m.create_pool c p fd size none).1.buffers.length := by
    rw [hbufeq, hfreeq]
    exact hbuf
  obtain ⟨hok, j, hjlook, halive, hjaddr, hjpool⟩ :=
    create_buffer_on_failed_pool (m.create_pool c p fd size none).1 c p i
      hlook haddr hbuf1 b off wd ht st fmtv
  exact ⟨i, hlook, href, haddr, hok, j, hjlook, halive, hjaddr, hjpool⟩

theorem c10_failed_mmap_still_mutates_witness :
    ((∀ i ∈ ShmManager.default.free_shm_pool_indexes,
        i < ShmManager.default.shm_pools.length) ∧
     (∀ j ∈ ShmManager.default.free_buffer_indexes,
        j < ShmManager.default.buffers.length)) ∧
    (∃ i, mapLookup (ShmManager.default.create_pool 1 2 5 4096
            none).1.shm_pool_index (1, 2) = some i ∧
      ((ShmManager.default.create_pool 1 2 5 4096 none).1.shm_pools.getD i
          junkPool).ref_count = 1 ∧
      ((ShmManager.default.create_pool 1 2 5 4096 none).1.shm_pools.getD i
          junkPool).address = none ∧
      ((ShmManager.default.create_pool 1 2 5 4096 none).1.create_buffer 1 2 3
          0 4 4 16 1).2 = true ∧
      ∃ j, mapLookup ((ShmManager.default.create_pool 1 2 5 4096
              none).1.create_buffer 1 2 3 0 4 4 16 1).1.buffer_index (1, 3) =
            some j ∧
        (((ShmManager.default.create_pool 1 2 5 4096 none).1.create_buffer 1 2
            3 0 4 4 16 1).1.buffers.getD j junkBuffer).alive = true ∧
        (((ShmManager.default.create_pool 1 2 5 4096 none).1.create_buffer 1 2
            3 0 4 4 16 1).1.buffers.getD j junkBuffer).address = none ∧
        (((ShmManager.default.create_pool 1 2 5 4096 none).1.create_buffer 1 2
            3 0 4 4 16 1).1.buffers.getD j junkBuffer).shm_pool_index = i) :=
  ⟨⟨by decide, by decide⟩,
    c10_failed_mmap_still_mutates ShmManager.default (by decide) (by decide)
      1 2 5 4096 3 0 4 4 16 1⟩

/-! # Claim C8 -/

/-- C8 (counterexample): with the latched error set, `write_u32` still
advances `bytes_in_buffer`, refuting the claim that every subsequent
scalar write is a no-op until the error is read. -/
theorem c8_unguarded_write_counterexample :
    ¬ (latchedWriter.write_u32 7).bytes_in_buffer =
        latchedWriter.bytes_in_buffer := by
  decide

/-- C8 (amended): once the latched error is set, `start_message` is a
no-op until the error is taken, but the raw scalar writes such as
`write_u32` carry no guard and still mutate the buffer (here: the cursor
advances by four bytes regardless of `last_err`). -/
theorem c8_start_message_noop (w : Writer) (object_id opcode value : Nat)
    (h : w.last_err.isSome = true) :
    w.start_message object_id opcode = w ∧
    (w.write_u32 value).bytes_in_buffer = w.bytes_in_buffer + 4 := by
  constructor
  · rw [Writer.start_message, if_pos h]
  · rfl

theorem c8_start_message_noop_witness :
    latchedWriter.last_err.isSome = true ∧
    (latchedWriter.start_message 3 1 = latchedWriter ∧
     (latchedWriter.write_u32 7).bytes_in_buffer =
       latchedWriter.bytes_in_buffer + 4) :=
  ⟨rfl, c8_start_message_noop latchedWriter 3 1 7 rfl⟩

/-! # Claim C6 -/

/-- C6 (counterexample): writing the one-byte string `"a"` emits the
length prefix 1, not 2, refuting the claim that the prefix counts the
trailing NUL. -/
theorem c6_write_str_counterexample :
    readU32 ((Writer.new 0).write_str [97]).buffer 0 = 1 ∧
    ¬ readU32 ((Writer.new 0).write_str [97]).buffer 0 = 1 + 1 := by
  decide

/-- C6 (amended): `Writer::write_str` truncates the string to
`MAX_STRING_LENGTH` bytes and encodes it as a `u32` length prefix equal
to the truncated byte length (without the trailing NUL), followed by the
bytes, one NUL byte, and padding that makes the total encoding length a
multiple of 4. -/
theorem c6_write_str_encoding (w : Writer) (s : List Nat) :
    readU32 (w.write_str s).buffer w.bytes_in_buffer =
      (s.take MAX_STRING_LENGTH).length ∧
    (List.range (s.take MAX_STRING_LENGTH).length).map
        (fun k => (w.write_str s).buffer (w.bytes_in_buffer + 4 + k)) =
      s.take MAX_STRING_LENGTH ∧
    (w.write_str s).buffer
        (w.bytes_in_buffer + 4 + (s.take MAX_STRING_LENGTH).length) = 0 ∧
    (w.write_str s).bytes_in_buffer =
      w.bytes_in_buffer + 4 + (s.take MAX_STRING_LENGTH).length +
        (4 - (s.take MAX_STRING_LENGTH).length % 4) ∧
    ((w.write_str s).bytes_in_buffer - w.bytes_in_buffer) % 4 = 0 ∧
    (s.take MAX_STRING_LENGTH).length = min MAX_STRING_LENGTH s.length := by
  have hlen : (s.take MAX_STRING_LENGTH).length ≤ 2048 := by
    simp [MAX_STRING_LENGTH]
  refine ⟨?_, ?_, ?_, ?_, ?_, ?_⟩
  · show readU32 (setByte (storeBytes (storeBytes w.buffer w.bytes_in_buffer
        (le32 (s.take MAX_STRING_LENGTH).length)) (w.bytes_in_buffer + 4)
        (s.take MAX_STRING_LENGTH)) (w.bytes_in_buffer + 4 +
        (s.take MAX_STRING_LENGTH).length) 0) w.bytes_in_buffer = _
    rw [readU32_skip_set _ _ _ _ (by omega),
      readU32_skip_store _ _ _ _ (Or.inr (by omega)),
      readU32_store_le32]
    omega
  · apply List.ext_getElem
    · simp
    · intro k h1 h2
      simp only [List.getElem_map, List.getElem_range]
      have hk : k < (s.take MAX_STRING_LENGTH).length := by
        simpa using h2
      show (setByte (storeBytes (storeBytes w.buffer w.bytes_in_buffer
          (le32 (s.take MAX_STRING_LENGTH).length)) (w.bytes_in_buffer + 4)
          (s.take MAX_STRING_LENGTH)) (w.bytes_in_buffer + 4 +
          (s.take MAX_STRING_LENGTH).length) 0)
          (w.bytes_in_buffer + 4 + k) = _
      rw [setByte_ne _ _ _ _ (by omega), storeBytes_get _ _ _ _ hk]
      simp
  · show (setByte (storeBytes (storeBytes w.buffer w.bytes_in_buffer
        (le32 (s.take MAX_STRING_LENGTH).length)) (w.bytes_in_buffer + 4)
        (s.take MAX_STRING_LENGTH)) (w.bytes_in_buffer + 4 +
        (s.take MAX_STRING_LENGTH).length) 0)
        (w.bytes_in_buffer + 4 + (s.take MAX_STRING_LENGTH).length) = 0
    exact setByte_eq _ _ _
  · rfl
  · show (w.bytes_in_buffer + 4 + (s.take MAX_STRING_LENGTH).length +
        (4 - (s.take MAX_STRING_LENGTH).length % 4) - w.bytes_in_buffer) % 4 = 0
    omega
  · simp [MAX_STRING_LENGTH]

/-! # Claim C3 -/

/-- Evaluation of the `sync` handler on a fresh writer: two 12-byte
frames, `wl_callback.done` (opcode 0) then `wl_display.delete_id`
(opcode 1). -/
theorem sync_new (st : DisplayState) (fd : Int) (oid c : Nat) :
    st.sync (Writer.new fd) oid c =
      { fd := fd
        buffer := storeBytes (storeBytes (storeBytes (storeBytes (storeBytes
            (storeBytes (storeBytes (storeBytes (storeBytes (storeBytes
            (fun _ => 0)
            0 (le32 (c % 4294967296))) 4 (le16 0)) 6 (le16 0))
            8 (le32 0)) 4 (le16 12))
            12 (le32 (oid % 4294967296))) 16 (le16 0)) 18 (le16 1))
            20 (le32 (c % 4294967296))) 16 (le16 12)
        bytes_in_buffer := 24
        fdvals := []
        bytes_in_fds := CMSGHDR_SIZE
        message_length_index := 16
        last_err := none
        sent := [] } := rfl

/-- C3 (confirmed): handling `wl_display.sync` with callback id `c`
writes exactly two events, in order `wl_callback.done` on object `c`
with `callback_data` 0 (opcode 0, 12 bytes) and then
`wl_display.delete_id` on object 1 carrying id `c` (opcode 1, 12 bytes):
24 bytes in total and no file descriptors. -/
theorem c3_sync_emits_done_then_delete_id (st : DisplayState) (fd : Int)
    (c : Nat) (h : c < 4294967296) :
    (st.sync (Writer.new fd) DISPLAY_OBJECT_ID c).bytes_in_buffer = 24 ∧
    readU32 (st.sync (Writer.new fd) DISPLAY_OBJECT_ID c).buffer 0 = c ∧
    readU16 (st.sync (Writer.new fd) DISPLAY_OBJECT_ID c).buffer 4 = 12 ∧
    readU16 (st.sync (Writer.new fd) DISPLAY_OBJECT_ID c).buffer 6 = 0 ∧
    readU32 (st.sync (Writer.new fd) DISPLAY_OBJECT_ID c).buffer 8 = 0 ∧
    readU32 (st.sync (Writer.new fd) DISPLAY_OBJECT_ID c).buffer 12 =
      DISPLAY_OBJECT_ID ∧
    readU16 (st.sync (Writer.new fd) DISPLAY_OBJECT_ID c).buffer 16 = 12 ∧
    readU16 (st.sync (Writer.new fd) DISPLAY_OBJECT_ID c).buffer 18 = 1 ∧
    readU32 (st.sync (Writer.new fd) DISPLAY_OBJECT_ID c).buffer 20 = c ∧
    (st.sync (Writer.new fd) DISPLAY_OBJECT_ID c).fdvals = [] ∧
    (st.sync (Writer.new fd) DISPLAY_OBJECT_ID c).bytes_in_fds =
      CMSGHDR_SIZE := by
  rw [sync_new]
  refine ⟨rfl, ?_, ?_, ?_, ?_, ?_, ?_, ?_, ?_, rfl, rfl⟩
  · simp [readU32_skip_store, readU32_store_le32, le16_length, le32_length]
    omega
  · simp [readU16_skip_store, readU16_store_le16, le16_length, le32_length]
  · simp [readU16_skip_store, readU16_store_le16, le16_length, le32_length]
  · simp [readU32_skip_store, readU32_store_le32, le16_length, le32_length]
  · simp [readU32_skip_store, readU32_store_le32, le16_length, le32_length,
      DISPLAY_OBJECT_ID]
  · simp [readU16_skip_store, readU16_store_le16, le16_length, le32_length]
  · simp [readU16_skip_store, readU16_store_le16, le16_length, le32_length]
  · simp [readU32_skip_store, readU32_store_le32, le16_length, le32_length]
    omega

theorem c3_sync_emits_done_then_delete_id_witness :
    ((2 : Nat) < 4294967296) ∧
    ((shmBindFixture.sync (Writer.new 0) DISPLAY_OBJECT_ID 2).bytes_in_buffer
        = 24 ∧
     readU32 (shmBindFixture.sync (Writer.new 0) DISPLAY_OBJECT_ID 2).buffer 0
        = 2 ∧
     readU16 (shmBindFixture.sync (Writer.new 0) DISPLAY_OBJECT_ID 2).buffer 4
        = 12 ∧
     readU16 (shmBindFixture.sync (Writer.new 0) DISPLAY_OBJECT_ID 2).buffer 6
        = 0 ∧
     readU32 (shmBindFixture.sync (Writer.new 0) DISPLAY_OBJECT_ID 2).buffer 8
        = 0 ∧
     readU32 (shmBindFixture.sync (Writer.new 0) DISPLAY_OBJECT_ID 2).buffer 12
        = DISPLAY_OBJECT_ID ∧
     readU16 (shmBindFixture.sync (Writer.new 0) DISPLAY_OBJECT_ID 2).buffer 16
        = 12 ∧
     readU16 (shmBindFixture.sync (Writer.new 0) DISPLAY_OBJECT_ID 2).buffer 18
        = 1 ∧
     readU32 (shmBindFixture.sync (Writer.new 0) DISPLAY_OBJECT_ID 2).buffer 20
        = 2 ∧
     (shmBindFixture.sync (Writer.new 0) DISPLAY_OBJECT_ID 2).fdvals = [] ∧
     (shmBindFixture.sync (Writer.new 0) DISPLAY_OBJECT_ID 2).bytes_in_fds =
       CMSGHDR_SIZE) :=
  ⟨by decide, c3_sync_emits_done_then_delete_id shmBindFixture 0 2 (by decide)⟩

/-! # Claim C7 -/

/-- Evaluation of two consecutive `wl_shm.format` events on a fresh
writer. -/
theorem two_shm_formats_new (fd : Int) (new_id : Nat) :
    ((Writer.new fd).wl_shm_format new_id
        WL_SHM_FORMAT_RGBA8888).wl_shm_format new_id WL_SHM_FORMAT_XRGB8888 =
      { fd := fd
        buffer := storeBytes (storeBytes (storeBytes (storeBytes (storeBytes
            (storeBytes (storeBytes (storeBytes (storeBytes (storeBytes
            (fun _ => 0)
            0 (le32 (new_id % 4294967296))) 4 (le16 0)) 6 (le16 0))
            8 (le32 WL_SHM_FORMAT_RGBA8888)) 4 (le16 12))
            12 (le32 (new_id % 4294967296))) 16 (le16 0)) 18 (le16 0))
            20 (le32 WL_SHM_FORMAT_XRGB8888)) 16 (le16 12)
        bytes_in_buffer := 24
        fdvals := []
        bytes_in_fds := CMSGHDR_SIZE
        message_length_index := 16
        last_err := none
        sent := [] } := rfl

/-- C7 (counterexample): binding the `wl_shm` global puts
`format(RGBA8888)` first on the wire — the first frame's format argument
(byte offset 8) is `RGBA8888`, not `XRGB8888` as the claimed order
demands. -/
theorem c7_format_order_counterexample :
    readU32 ((shmBindFixture.bind Registry.new (Writer.new 0) 1 2
        "wl_shm").2.buffer) 8 = WL_SHM_FORMAT_RGBA8888 ∧
    ¬ readU32 ((shmBindFixture.bind Registry.new (Writer.new 0) 1 2
        "wl_shm").2.buffer) 8 = WL_SHM_FORMAT_XRGB8888 := by
  decide

/-- C7 (amended): binding a known global with the interface string
`wl_shm` registers the new object under the global's interface and emits
exactly two `wl_shm.format` events (24 bytes, no file descriptors), in
order `format(RGBA8888)` first and `format(XRGB8888)` second. -/
theorem c7_bind_emits_rgba_then_xrgb (st : DisplayState) (r : Registry)
    (fd : Int) (name new_id : Nat) (g : Global)
    (hg : mapLookup st.globals name = some g) (hid : new_id < 4294967296) :
    (st.bind r (Writer.new fd) name new_id "wl_shm").2.bytes_in_buffer = 24 ∧
    readU32 (st.bind r (Writer.new fd) name new_id "wl_shm").2.buffer 0 =
      new_id ∧
    readU16 (st.bind r (Writer.new fd) name new_id "wl_shm").2.buffer 6 = 0 ∧
    readU32 (st.bind r (Writer.new fd) name new_id "wl_shm").2.buffer 8 =
      WL_SHM_FORMAT_RGBA8888 ∧
    readU32 (st.bind r (Writer.new fd) name new_id "wl_shm").2.buffer 12 =
      new_id ∧
    readU16 (st.bind r (Writer.new fd) name new_id "wl_shm").2.buffer 18 = 0 ∧
    readU32 (st.bind r (Writer.new fd) name new_id "wl_shm").2.buffer 20 =
      WL_SHM_FORMAT_XRGB8888 ∧
    (st.bind r (Writer.new fd) name new_id "wl_shm").2.fdvals = [] ∧
    (st.bind r (Writer.new fd) name new_id "wl_shm").1.interface_index new_id =
      some g.interface_index := by
  have hbind : st.bind r (Writer.new fd) name new_id "wl_shm" =
      (r.register_object new_id g.interface_index,
        ((Writer.new fd).wl_shm_format new_id
            WL_SHM_FORMAT_RGBA8888).wl_shm_format new_id
            WL_SHM_FORMAT_XRGB8888) := by
    rw [DisplayState.bind, hg]
    rfl
  rw [hbind, two_shm_formats_new]
  refine ⟨rfl, ?_, ?_, ?_, ?_, ?_, ?_, rfl, ?_⟩
  · simp [readU32_skip_store, readU32_store_le32, le16_length, le32_length]
    omega
  · simp [readU16_skip_store, readU16_store_le16, le16_length, le32_length]
  · simp [readU32_skip_store, readU32_store_le32, le16_length, le32_length,
      WL_SHM_FORMAT_RGBA8888]
  · simp [readU32_skip_store, readU32_store_le32, le16_length, le32_length]
    omega
  · simp [readU16_skip_store, readU16_store_le16, le16_length, le32_length]
  · simp [readU32_skip_store, readU32_store_le32, le16_length, le32_length,
      WL_SHM_FORMAT_XRGB8888]
  · simp [Registry.register_object, Registry.interface_index,
      mapInsert_lookup_self]

theorem c7_bind_emits_rgba_then_xrgb_witness :
    (mapLookup shmBindFixture.globals 1 = some shmGlobal ∧
      (2 : Nat) < 4294967296) ∧
    ((shmBindFixture.bind Registry.new (Writer.new 0) 1 2
        "wl_shm").2.bytes_in_buffer = 24 ∧
     readU32 (shmBindFixture.bind Registry.new (Writer.new 0) 1 2
        "wl_shm").2.buffer 0 = 2 ∧
     readU16 (shmBindFixture.bind Registry.new (Writer.new 0) 1 2
        "wl_shm").2.buffer 6 = 0 ∧
     readU32 (shmBindFixture.bind Registry.new (Writer.new 0) 1 2
        "wl_shm").2.buffer 8 = WL_SHM_FORMAT_RGBA8888 ∧
     readU32 (shmBindFixture.bind Registry.new (Writer.new 0) 1 2
        "wl_shm").2.buffer 12 = 2 ∧
     readU16 (shmBindFixture.bind Registry.new (Writer.new 0) 1 2
        "wl_shm").2.buffer 18 = 0 ∧
     readU32 (shmBindFixture.bind Registry.new (Writer.new 0) 1 2
        "wl_shm").2.buffer 20 = WL_SHM_FORMAT_XRGB8888 ∧
     (shmBindFixture.bind Registry.new (Writer.new 0) 1 2
        "wl_shm").2.fdvals = [] ∧
     (shmBindFixture.bind Registry.new (Writer.new 0) 1 2
        "wl_shm").1.interface_index 2 = some shmGlobal.interface_index) :=
  ⟨⟨rfl, by decide⟩,
    c7_bind_emits_rgba_then_xrgb shmBindFixture Registry.new 0 1 2 shmGlobal
      rfl (by decide)⟩

end Lumalla
